import Mathlib

/-! container-concepts-demo: health flags, memory hog, shutdown sequence

A shallow embedding of `cmd/container-concepts-demo/main.go`.

* The package-level variables `isAlive`, `isReady` become `HealthState`.
* The package-level variables `memoryHog`, `hogging`, `hogStop` become
  `SimState`, together with the two pieces of run-time state the Go program
  keeps implicitly: the channels created by `make(chan struct{})` (each is
  open or closed) and the goroutines spawned by `startHog`.
* Every HTTP handler is one function from the state before the request to the
  state after it and the response written.  A goroutine contributes two kinds
  of step, one for each `case` of its `select`.
* Requests are served concurrently and `startHogHandler` tests `hogging` and
  calls `startHog` without holding `hogMu`, so an interleaving may also take
  the test and the call as two steps with other steps in between.
* The tail of `main` after the signal is received becomes a program counter
  with one step per statement.

Go `int` is the 64-bit signed integer; values are `Int` and every place where
the program can wrap is written with `wrapInt64`.
-/

namespace ContainerConceptsDemo

/-! ## Health flags -/

/-- The package-level flags `isAlive` and `isReady` (both start `true`). -/
structure HealthState where
  isAlive : Bool
  isReady : Bool
  deriving DecidableEq, Repr

/-- The values the flags are declared with. -/
def HealthState.initial : HealthState := { isAlive := true, isReady := true }

/-- Handler of `/healthz`: status code and body line. -/
def healthzHandler (h : HealthState) : Nat × String :=
  if h.isAlive then (200, "ALIVE") else (500, "NOT ALIVE")

/-- Handler of `/ready`: status code and body line. -/
def readyHandler (h : HealthState) : Nat × String :=
  if h.isReady then (200, "READY") else (503, "NOT READY")

/-- Handler of `/toggle-alive`: `isAlive = !isAlive`; the body reports the new value. -/
def toggleAliveHandler (h : HealthState) : HealthState × Bool :=
  let h1 := { h with isAlive := !h.isAlive }
  (h1, h1.isAlive)

/-- Handler of `/toggle-ready`: `isReady = !isReady`; the body reports the new value. -/
def toggleReadyHandler (h : HealthState) : HealthState × Bool :=
  let h1 := { h with isReady := !h.isReady }
  (h1, h1.isReady)

/-! ## `strconv.Atoi` -/

/-- Accumulates decimal digits most significant first; `none` at the first
byte that is not `0`..`9`. -/
def parseDigits : List Char → Nat → Option Nat
  | [], acc => some acc
  | c :: cs, acc =>
    if 48 ≤ c.toNat ∧ c.toNat ≤ 57 then parseDigits cs (acc * 10 + (c.toNat - 48))
    else none

/-- Go's `strconv.Atoi` for a 64-bit `int`: an optional sign, then at least one
decimal digit and nothing else; a value outside `[-2^63, 2^63 - 1]` is a range
error.  `none` stands for `err != nil`. -/
def atoi (s : String) : Option Int :=
  let cs := s.toList
  let neg := cs.head? = some '-'
  let ds := if cs.head? = some '-' ∨ cs.head? = some '+' then cs.tail else cs
  if ds = [] then none
  else
    match parseDigits ds 0 with
    | none => none
    | some n =>
      let v : Int := if neg then -(n : Int) else (n : Int)
      if -(2 : Int) ^ 63 ≤ v ∧ v < (2 : Int) ^ 63 then some v else none

/-! ## Memory hog state -/

/-- One element of `memoryHog`: a byte slice. -/
abbrev Chunk := List Nat

/-- The chunk built by `make([]byte, 1_000_000)` followed by the loop
`chunk[j] = 1`. -/
def newChunk : Chunk := List.replicate 1000000 1

/-- A goroutine spawned by `startHog`: the `mb` it captured, and the channel its
current `select` evaluated `hogStop` to (`none` for a nil channel). -/
structure Loop where
  mb : Int
  waitingOn : Option Nat

/-- The memory hog variables and the run-time state behind them.  `chans[c]` is
`true` once channel `c` has been closed.  `starting` holds the `mb` of every
`/start-hog` request that has passed the test `if hogging` and has not yet
called `startHog`. -/
structure SimState where
  memoryHog : List Chunk
  hogging : Bool
  hogStop : Option Nat
  chans : List Bool
  loops : List Loop
  starting : List Int

/-- The state at process start: `memoryHog` and `hogStop` nil, `hogging` false,
no channel made, no goroutine spawned, no request in flight. -/
def SimState.initial : SimState :=
  { memoryHog := [], hogging := false, hogStop := none, chans := [], loops := [],
    starting := [] }

/-- What a hog handler writes. -/
inductive Response where
  | badRequest
  | alreadyHogging
  | started (mb : Int)
  | stopped
  | notHogging
  | resetDone
  | allocated (mb : Int) (total : Nat)
  deriving DecidableEq, Repr

/-- HTTP status of a response: only `http.Error(..., StatusBadRequest)` is not 200. -/
def Response.status : Response → Nat
  | .badRequest => 400
  | _ => 200

/-- A Go run-time panic raised by `close`. -/
inductive GoPanic where
  | closeOfNilChannel
  | closeOfClosedChannel
  deriving DecidableEq, Repr

/-- The loop `for i := 0; i < mb; i++ { ...; memoryHog = append(memoryHog, chunk) }`
with `n` iterations left. -/
def allocLoop : Nat → List Chunk → List Chunk
  | 0, hog => hog
  | n + 1, hog => allocLoop n (hog ++ [newChunk])

/-- The allocation loop for a given `mb`: it runs `mb` times when `mb > 0` and
not at all otherwise. -/
def allocate (mb : Int) (hog : List Chunk) : List Chunk :=
  allocLoop mb.toNat hog

/-- Handler `oneShotHogHandler` (`/hog`), given the value of query parameter `mb`. -/
def oneShotHogHandler (s : SimState) (mbParam : String) : SimState × Response :=
  let mbParam := if mbParam = "" then "10" else mbParam
  match atoi mbParam with
  | none => (s, .badRequest)
  | some mb =>
    if mb ≤ 0 then (s, .badRequest)
    else
      let hog := allocate mb s.memoryHog
      ({ s with memoryHog := hog }, .allocated mb hog.length)

/-- The lock-protected read of `len(memoryHog)`. -/
def currentBlockCount (s : SimState) : Nat := s.memoryHog.length

/-- The function `startHog`: a fresh channel goes into `hogStop`, `hogging`
becomes true and a goroutine capturing `mb` is spawned. -/
def startHog (s : SimState) (mb : Int) : SimState :=
  let c := s.chans.length
  { s with
    hogStop := some c
    hogging := true
    chans := s.chans ++ [false]
    loops := s.loops ++ [{ mb := mb, waitingOn := some c }] }

/-- Handler `startHogHandler` (`/start-hog`), given the value of query parameter `mb`. -/
def startHogHandler (s : SimState) (mbParam : String) : SimState × Response :=
  let mbParam := if mbParam = "" then "5" else mbParam
  match atoi mbParam with
  | none => (s, .badRequest)
  | some mb =>
    if mb ≤ 0 then (s, .badRequest)
    else if s.hogging then (s, .alreadyHogging)
    else (startHog s mb, .started mb)

/-- The statements of `startHogHandler` before the call `startHog(mb)`: the
parameter is parsed and `hogging` is tested.  The request is answered here
(`error`), or goes on to call `startHog` with the `mb` returned (`ok`). -/
def startHogGuard (s : SimState) (mbParam : String) : Except Response Int :=
  let mbParam := if mbParam = "" then "5" else mbParam
  match atoi mbParam with
  | none => .error .badRequest
  | some mb =>
    if mb ≤ 0 then .error .badRequest
    else if s.hogging then .error .alreadyHogging
    else .ok mb

/-- A request that passes the test of `startHogHandler` and is then overtaken:
its `mb` waits in `starting` for the call of `startHog`. -/
def startHogTest (s : SimState) (mbParam : String) : SimState :=
  match startHogGuard s mbParam with
  | .ok mb => { s with starting := s.starting ++ [mb] }
  | .error _ => s

/-- The waiting request `j` resumes: it calls `startHog(mb)` on the state as it
is now, without looking at `hogging` again. -/
def startHogCall (s : SimState) (j : Nat) : SimState :=
  match s.starting[j]? with
  | none => s
  | some mb => startHog { s with starting := s.starting.eraseIdx j } mb

/-- Go's `close(ch)`: panics on a nil channel and on a closed one.  (An id that
names no channel made so far is never stored in `hogStop`; it is refused too.) -/
def closeChan (chans : List Bool) : Option Nat → Except GoPanic (List Bool)
  | none => .error .closeOfNilChannel
  | some c =>
    match chans[c]? with
    | some false => .ok (chans.set c true)
    | _ => .error .closeOfClosedChannel

/-- The function `stopHog`: `close(hogStop)`. -/
def stopHog (s : SimState) : Except GoPanic SimState :=
  match closeChan s.chans s.hogStop with
  | .ok chans => .ok { s with chans := chans }
  | .error p => .error p

/-- Handler `stopHogHandler` (`/stop-hog`). -/
def stopHogHandler (s : SimState) : Except GoPanic (SimState × Response) :=
  if s.hogging then
    match stopHog s with
    | .ok s1 => .ok (s1, .stopped)
    | .error p => .error p
  else .ok (s, .notHogging)

/-- Handler `resetHogHandler` (`/reset-hog`): `memoryHog = nil`. -/
def resetHogHandler (s : SimState) : SimState × Response :=
  ({ s with memoryHog := [] }, .resetDone)

/-- The `case <-ticker.C` branch taken by goroutine `i`: it appends its `mb`
chunks, then goes round the `for` and evaluates `hogStop` for the next `select`. -/
def loopTick (s : SimState) (i : Nat) : SimState :=
  match s.loops[i]? with
  | none => s
  | some l =>
    { s with
      memoryHog := allocate l.mb s.memoryHog
      loops := s.loops.set i { l with waitingOn := s.hogStop } }

/-- Whether a receive from the channel can proceed: only a closed channel
delivers on `<-hogStop`, nobody ever sends on it. -/
def chanClosed (chans : List Bool) : Option Nat → Bool
  | none => false
  | some c => chans[c]? = some true

/-- The `case <-hogStop` branch taken by goroutine `i`, possible once the channel
of its `select` is closed: `hogging = false` and the goroutine returns. -/
def loopExit (s : SimState) (i : Nat) : SimState :=
  match s.loops[i]? with
  | none => s
  | some l =>
    if chanClosed s.chans l.waitingOn then
      { s with hogging := false, loops := s.loops.eraseIdx i }
    else s

/-! ## Interleavings of the hog handlers and goroutines -/

/-- One step of the memory hog: a whole handler call, one iteration of goroutine
`i` through one `case` of its `select`, or one of the two halves of a
`/start-hog` request that other steps overtake between its test of `hogging`
(`startTest`) and its call of `startHog` (`startCall`). -/
inductive Event where
  | start (mbParam : String)
  | stop
  | reset
  | oneShot (mbParam : String)
  | tick (i : Nat)
  | exit (i : Nat)
  | startTest (mbParam : String)
  | startCall (j : Nat)

/-- The events in which every `/start-hog` request runs from its test to its
call of `startHog` with no other step in between. -/
def Event.whole : Event → Bool
  | .startTest _ => false
  | .startCall _ => false
  | _ => true

/-- The state after one event.  A handler that panics has changed nothing when
the panic is raised, and the panic ends only that request. -/
def step (s : SimState) : Event → SimState
  | .start p => (startHogHandler s p).1
  | .stop =>
    match stopHogHandler s with
    | .ok r => r.1
    | .error _ => s
  | .reset => (resetHogHandler s).1
  | .oneShot p => (oneShotHogHandler s p).1
  | .tick i => loopTick s i
  | .exit i => loopExit s i
  | .startTest p => startHogTest s p
  | .startCall j => startHogCall s j

/-- The state after a sequence of events, oldest first. -/
def run (s : SimState) (evs : List Event) : SimState := evs.foldl step s

/-- The state after goroutine `i` has gone `k` times through its ticker case. -/
def ticks (i k : Nat) (s : SimState) : SimState :=
  (fun t => loopTick t i)^[k] s

/-- The state after `k` successive `/hog` requests with the same parameter. -/
def oneShots (mbParam : String) (k : Nat) (s : SimState) : SimState :=
  (fun t => (oneShotHogHandler t mbParam).1)^[k] s

/-- The link between the flag `hogging` and the spawned goroutines. -/
def LoopInv (s : SimState) : Prop :=
  (s.hogging = true ↔ s.loops ≠ []) ∧ s.loops.length ≤ 1

/-! ## Configuration and the shutdown sequence of `main` -/

/-- The function `getEnv`; `val` is the result of `os.LookupEnv(key)`. -/
def getEnv (val : Option String) (fallback : String) : String :=
  match val with
  | some v => v
  | none => fallback

/-- The function `getEnvAsInt`. -/
def getEnvAsInt (val : Option String) (fallback : Int) : Int :=
  let valStr := getEnv val ""
  if valStr = "" then fallback
  else
    match atoi valStr with
    | some v => v
    | none => fallback

/-- The function `getEnvAsBool`. -/
def getEnvAsBool (val : Option String) (fallback : Bool) : Bool :=
  let valStr := getEnv val ""
  if valStr = "" then fallback
  else if valStr = "true" ∨ valStr = "1" ∨ valStr = "yes" ∨ valStr = "TRUE" ∨ valStr = "True" then true
  else if valStr = "false" ∨ valStr = "0" ∨ valStr = "no" ∨ valStr = "FALSE" ∨ valStr = "False" then false
  else fallback

/-- The variables `shutdownDelay` and `unreadyOnShutdown`. -/
structure ShutdownConfig where
  shutdownDelay : Int
  unreadyOnShutdown : Bool
  deriving DecidableEq, Repr

/-- The configuration as the package-level initialisers compute it from the
values of `SHUTDOWN_DELAY` and `UNREADY_ON_SHUTDOWN`. -/
def loadConfig (delayVar unreadyVar : Option String) : ShutdownConfig :=
  { shutdownDelay := getEnvAsInt delayVar 3
    unreadyOnShutdown := getEnvAsBool unreadyVar true }

/-- Two's-complement wrap of a 64-bit signed result. -/
def wrapInt64 (x : Int) : Int := (x + 2 ^ 63) % 2 ^ 64 - 2 ^ 63

/-- The constant `time.Second`, in nanoseconds. -/
def timeSecond : Int := 1000000000

/-- The product `time.Duration(n) * time.Second`, an `int64` multiplication. -/
def secondsToDuration (n : Int) : Int := wrapInt64 (n * timeSecond)

/-- Where `main` stands from the receive on `stopChan` onwards. -/
inductive Pc where
  | awaitSignal
  | unreadyCheck
  | delayCheck
  | blockedForever
  | sleeping
  | draining
  | exited
  deriving DecidableEq, Repr

/-- The state of `main` during shutdown: the program counter, the health flags,
the duration handed to `time.Sleep`, the timeout of the context handed to
`server.Shutdown`, and whether "Server forced to shutdown" was logged. -/
structure MainState where
  pc : Pc
  health : HealthState
  sleepNs : Option Int
  drainTimeoutNs : Option Int
  forcedLogged : Bool
  deriving DecidableEq, Repr

/-- The function `main` blocked in `sig := <-stopChan`. -/
def MainState.initial (h : HealthState) : MainState :=
  { pc := .awaitSignal, health := h, sleepNs := none, drainTimeoutNs := none,
    forcedLogged := false }

/-- One statement of `main`.  `shutdownErr` tells whether `server.Shutdown(ctx)`
returns an error (the drain ran into its timeout). -/
def mainStep (cfg : ShutdownConfig) (shutdownErr : Bool) (st : MainState) : MainState :=
  match st.pc with
  | .awaitSignal => { st with pc := .unreadyCheck }
  | .unreadyCheck =>
    if cfg.unreadyOnShutdown then
      { st with pc := .delayCheck, health := { st.health with isReady := false } }
    else { st with pc := .delayCheck }
  | .delayCheck =>
    if cfg.shutdownDelay < 0 then { st with pc := .blockedForever }
    else { st with pc := .sleeping, sleepNs := some (secondsToDuration cfg.shutdownDelay) }
  | .blockedForever => st
  | .sleeping => { st with pc := .draining, drainTimeoutNs := some (secondsToDuration 10) }
  | .draining => { st with pc := .exited, forcedLogged := shutdownErr }
  | .exited => st

/-- The state of `main` after `n` statements. -/
def runMain (cfg : ShutdownConfig) (shutdownErr : Bool) : Nat → MainState → MainState
  | 0, st => st
  | n + 1, st => runMain cfg shutdownErr n (mainStep cfg shutdownErr st)

/-- What the shutdown statements keep true of the health flags: `isAlive` is the
value `h` had, and `isReady` is the value `h` had until the statement
`if unreadyOnShutdown` has run, which clears it when the option is set. -/
def SeqInv (cfg : ShutdownConfig) (h : HealthState) (st : MainState) : Prop :=
  st.health.isAlive = h.isAlive ∧
  (if st.pc = .awaitSignal ∨ st.pc = .unreadyCheck then st.health.isReady = h.isReady
   else st.health.isReady = (if cfg.unreadyOnShutdown then false else h.isReady))

/-! ## Facts about the allocation loop and `atoi` -/

theorem allocLoop_eq (n : Nat) (hog : List Chunk) :
    allocLoop n hog = hog ++ List.replicate n newChunk := by
  induction n generalizing hog with
  | zero => simp [allocLoop]
  | succ k ih =>
    rw [allocLoop, ih, List.replicate_succ, List.append_assoc]
    rfl

theorem allocate_length (mb : Int) (hog : List Chunk) :
    (allocate mb hog).length = hog.length + mb.toNat := by
  simp [allocate, allocLoop_eq]

theorem atoi_empty : atoi "" = none := by decide

theorem ne_empty_of_atoi {p : String} {n : Int} (h : atoi p = some n) : p ≠ "" := by
  intro hp
  rw [hp, atoi_empty] at h
  cases h

/-! ## The handlers on accepted and rejected requests -/

theorem oneShot_accept (s : SimState) (p : String) (n : Int)
    (hp : atoi p = some n) (hn : 0 < n) :
    oneShotHogHandler s p =
      ({ s with memoryHog := allocate n s.memoryHog },
        .allocated n (allocate n s.memoryHog).length) := by
  simp [oneShotHogHandler, ne_empty_of_atoi hp, hp, not_le.mpr hn]

theorem oneShot_one (s : SimState) :
    (oneShotHogHandler s "1").1 = { s with memoryHog := s.memoryHog ++ [newChunk] } := by
  rw [oneShot_accept s "1" 1 (by decide) (by decide)]
  rfl

theorem oneShots_one_count (k : Nat) (s : SimState) :
    currentBlockCount (oneShots "1" k s) = currentBlockCount s + k := by
  unfold oneShots
  induction k generalizing s with
  | zero => rfl
  | succ j ih =>
    rw [Function.iterate_succ_apply, ih, oneShot_one]
    simp only [currentBlockCount, List.length_append, List.length_singleton]
    omega

theorem start_accept (s : SimState) (p : String) (n : Int)
    (hp : atoi p = some n) (hn : 0 < n) (hidle : s.hogging = false) :
    startHogHandler s p = (startHog s n, .started n) := by
  simp [startHogHandler, ne_empty_of_atoi hp, hp, not_le.mpr hn, hidle]

theorem start_reject (s : SimState) (p : String) (n : Int)
    (hp : atoi p = some n) (hn : 0 < n) (hbusy : s.hogging = true) :
    startHogHandler s p = (s, .alreadyHogging) := by
  simp [startHogHandler, ne_empty_of_atoi hp, hp, not_le.mpr hn, hbusy]

/-- The state `k` ticks after `startHog s n`, for the goroutine it spawned: only
`memoryHog` has changed, by `k` times `n` chunks. -/
theorem ticks_after_start (s : SimState) (n : Int) (k : Nat) :
    ticks s.loops.length k (startHog s n) =
      { startHog s n with
        memoryHog := s.memoryHog ++ List.replicate (k * n.toNat) newChunk } := by
  unfold ticks
  induction k with
  | zero => simp [startHog]
  | succ j ih =>
    rw [Function.iterate_succ_apply', ih]
    have hget :
        (s.loops ++ [({ mb := n, waitingOn := some s.chans.length } : Loop)])[s.loops.length]?
          = some { mb := n, waitingOn := some s.chans.length } := by
      simp
    have hset :
        (s.loops ++ [({ mb := n, waitingOn := some s.chans.length } : Loop)]).set
            s.loops.length { mb := n, waitingOn := some s.chans.length }
          = s.loops ++ [{ mb := n, waitingOn := some s.chans.length }] := by
      simp
    simp only [loopTick, startHog, hget, hset, allocate, allocLoop_eq, Nat.succ_mul,
      List.replicate_add, List.append_assoc]

theorem stop_frame (s : SimState) :
    (step s .stop).hogging = s.hogging ∧ (step s .stop).loops = s.loops ∧
    (step s .stop).memoryHog = s.memoryHog ∧ (step s .stop).hogStop = s.hogStop := by
  obtain ⟨hog, flag, stopCh, chans, loops, waiting⟩ := s
  simp only [step, stopHogHandler, stopHog]
  cases flag with
  | false => simp
  | true =>
    cases closeChan chans stopCh with
    | ok c => simp
    | error e => simp

/-! ## The invariant of the interleavings -/

theorem loopInv_initial : LoopInv SimState.initial := by
  simp [LoopInv, SimState.initial]

theorem loopInv_start (s : SimState) (p : String) (h : LoopInv s) :
    LoopInv (startHogHandler s p).1 := by
  unfold startHogHandler
  simp only
  split
  · exact h
  · split
    · exact h
    · split
      · exact h
      · rename_i hidle
        have hnil : s.loops = [] := by
          by_contra hne
          exact hidle (h.1.mpr hne)
        simp [LoopInv, startHog, hnil]

theorem loopInv_stop (s : SimState) (h : LoopInv s) : LoopInv (step s .stop) := by
  obtain ⟨h1, h2, -, -⟩ := stop_frame s
  simpa [LoopInv, h1, h2] using h

theorem loopInv_oneShot (s : SimState) (p : String) (h : LoopInv s) :
    LoopInv (oneShotHogHandler s p).1 := by
  unfold oneShotHogHandler
  simp only
  split
  · exact h
  · split
    · exact h
    · exact h

theorem loopInv_tick (s : SimState) (i : Nat) (h : LoopInv s) : LoopInv (loopTick s i) := by
  unfold loopTick
  split
  · exact h
  · simpa [LoopInv] using h

theorem loopInv_exit (s : SimState) (i : Nat) (h : LoopInv s) : LoopInv (loopExit s i) := by
  unfold loopExit
  split
  · exact h
  · rename_i l hl
    split
    · have hi : i < s.loops.length := by
        rcases List.getElem?_eq_some_iff.mp hl with ⟨hi, -⟩
        exact hi
      have hlen : (s.loops.eraseIdx i).length = 0 := by
        rw [List.length_eraseIdx]
        have := h.2
        simp [hi]
        omega
      have hnil : s.loops.eraseIdx i = [] := List.length_eq_zero.mp hlen
      simp [LoopInv, hnil]
    · exact h

theorem loopInv_step (s : SimState) (e : Event) (he : e.whole = true) (h : LoopInv s) :
    LoopInv (step s e) := by
  cases e with
  | start p => exact loopInv_start s p h
  | stop => exact loopInv_stop s h
  | reset => exact h
  | oneShot p => exact loopInv_oneShot s p h
  | tick i => exact loopInv_tick s i h
  | exit i => exact loopInv_exit s i h
  | startTest p => cases he
  | startCall j => cases he

/-- As long as no `/start-hog` request is overtaken between its test and its
call of `startHog`, `hogging` is set exactly when a goroutine exists and there
is at most one. -/
theorem loopInv_run_whole (evs : List Event) (s : SimState)
    (he : ∀ e ∈ evs, e.whole = true) (h : LoopInv s) : LoopInv (run s evs) := by
  induction evs generalizing s with
  | nil => exact h
  | cons e es ih =>
    exact ih (step s e) (fun x hx => he x (List.mem_cons_of_mem e hx))
      (loopInv_step s e (he e (List.mem_cons_self e es)) h)

/-- The handler `startHogHandler` is its guard followed at once by `startHog`. -/
theorem startHogHandler_eq_guard (s : SimState) (p : String) :
    startHogHandler s p =
      match startHogGuard s p with
      | .ok mb => (startHog s mb, .started mb)
      | .error r => (s, r) := by
  unfold startHogHandler startHogGuard
  simp only
  split
  · rfl
  · split
    · rfl
    · split <;> rfl

/-- Once no goroutine is left, a tick changes nothing. -/
theorem tick_without_loops (s : SimState) (i : Nat) (h : s.loops = []) :
    loopTick s i = s := by
  simp [loopTick, h]

/-- A whole `/start-hog` request is its test followed at once by its call. -/
theorem start_eq_test_then_call (s : SimState) (p : String) :
    step s (.start p) = step (step s (.startTest p)) (.startCall s.starting.length) := by
  obtain ⟨hog, flag, stopCh, chans, loops, waiting⟩ := s
  simp only [step, startHogTest, startHogCall, startHogHandler_eq_guard]
  cases startHogGuard ⟨hog, flag, stopCh, chans, loops, waiting⟩ p with
  | error r => simp
  | ok mb =>
    have hdrop : (waiting ++ [mb]).eraseIdx waiting.length = waiting := by
      rw [List.eraseIdx_append_of_length_le (Nat.le_refl _)]
      simp
    simp [hdrop]

/-! ## The shutdown sequence, statement by statement -/

theorem runMain_add (cfg : ShutdownConfig) (err : Bool) (a b : Nat) (st : MainState) :
    runMain cfg err (a + b) st = runMain cfg err b (runMain cfg err a st) := by
  induction a generalizing st with
  | zero => simp [runMain]
  | succ k ih => rw [Nat.succ_add, runMain, runMain, ih]

theorem runMain_blocked (cfg : ShutdownConfig) (err : Bool) (n : Nat) (st : MainState)
    (h : st.pc = .blockedForever) : runMain cfg err n st = st := by
  induction n with
  | zero => rfl
  | succ k ih =>
    have hs : mainStep cfg err st = st := by simp [mainStep, h]
    rw [runMain, hs, ih]

theorem runMain_exited (cfg : ShutdownConfig) (err : Bool) (n : Nat) (st : MainState)
    (h : st.pc = .exited) : runMain cfg err n st = st := by
  induction n with
  | zero => rfl
  | succ k ih =>
    have hs : mainStep cfg err st = st := by simp [mainStep, h]
    rw [runMain, hs, ih]

theorem runMain_early_pc (cfg : ShutdownConfig) (err : Bool) (h : HealthState) :
    (runMain cfg err 0 (MainState.initial h)).pc = .awaitSignal ∧
    (runMain cfg err 1 (MainState.initial h)).pc = .unreadyCheck ∧
    (runMain cfg err 2 (MainState.initial h)).pc = .delayCheck := by
  refine ⟨rfl, rfl, ?_⟩
  cases hu : cfg.unreadyOnShutdown <;> simp [runMain, mainStep, MainState.initial, hu]

theorem runMain_three_neg (cfg : ShutdownConfig) (err : Bool) (h : HealthState)
    (hd : cfg.shutdownDelay < 0) :
    runMain cfg err 3 (MainState.initial h) =
      { MainState.initial h with
        pc := .blockedForever
        health := { h with isReady := if cfg.unreadyOnShutdown then false else h.isReady } } := by
  cases hu : cfg.unreadyOnShutdown <;> simp [runMain, mainStep, MainState.initial, hd, hu]

theorem runMain_five_nonneg (cfg : ShutdownConfig) (err : Bool) (h : HealthState)
    (hd : 0 ≤ cfg.shutdownDelay) :
    runMain cfg err 5 (MainState.initial h) =
      { pc := .exited
        health := { h with isReady := if cfg.unreadyOnShutdown then false else h.isReady }
        sleepNs := some (secondsToDuration cfg.shutdownDelay)
        drainTimeoutNs := some (secondsToDuration 10)
        forcedLogged := err } := by
  cases hu : cfg.unreadyOnShutdown <;>
    simp [runMain, mainStep, MainState.initial, not_lt.mpr hd, hu]

theorem runMain_pc_neg (cfg : ShutdownConfig) (err : Bool) (h : HealthState)
    (hd : cfg.shutdownDelay < 0) (n : Nat) :
    (runMain cfg err n (MainState.initial h)).pc ≠ .sleeping ∧
    (runMain cfg err n (MainState.initial h)).pc ≠ .draining ∧
    (runMain cfg err n (MainState.initial h)).pc ≠ .exited := by
  obtain ⟨e0, e1, e2⟩ := runMain_early_pc cfg err h
  rcases Nat.lt_or_ge n 3 with hlt | hge
  · interval_cases n
    · rw [e0]; simp
    · rw [e1]; simp
    · rw [e2]; simp
  · obtain ⟨k, rfl⟩ : ∃ k, n = 3 + k := ⟨n - 3, by omega⟩
    rw [runMain_add, runMain_three_neg cfg err h hd, runMain_blocked _ _ _ _ rfl]
    simp

theorem runMain_from_five (cfg : ShutdownConfig) (err : Bool) (h : HealthState)
    (hd : 0 ≤ cfg.shutdownDelay) (n : Nat) (hn : 5 ≤ n) :
    runMain cfg err n (MainState.initial h) = runMain cfg err 5 (MainState.initial h) := by
  obtain ⟨k, rfl⟩ : ∃ k, n = 5 + k := ⟨n - 5, by omega⟩
  rw [runMain_add, runMain_exited]
  rw [runMain_five_nonneg cfg err h hd]

theorem secondsToDuration_exact (d : Int) (h0 : 0 ≤ d) (h1 : d ≤ 9223372036) :
    secondsToDuration d = d * 1000000000 := by
  unfold secondsToDuration wrapInt64 timeSecond
  have : (d * 1000000000 + 2 ^ 63) % 2 ^ 64 = d * 1000000000 + 2 ^ 63 := by
    apply Int.emod_eq_of_lt <;> omega
  omega

theorem seqInv_initial (cfg : ShutdownConfig) (h : HealthState) :
    SeqInv cfg h (MainState.initial h) := by
  simp [SeqInv, MainState.initial]

theorem seqInv_step (cfg : ShutdownConfig) (err : Bool) (h : HealthState) (st : MainState)
    (hi : SeqInv cfg h st) : SeqInv cfg h (mainStep cfg err st) := by
  obtain ⟨pc, hl, sl, dr, fl⟩ := st
  obtain ⟨ha, hr⟩ := hi
  cases pc <;> cases hu : cfg.unreadyOnShutdown <;>
    simp_all [SeqInv, mainStep] <;> split <;> simp_all

theorem seqInv_run (cfg : ShutdownConfig) (err : Bool) (h : HealthState) (n : Nat)
    (st : MainState) (hi : SeqInv cfg h st) : SeqInv cfg h (runMain cfg err n st) := by
  induction n generalizing st with
  | zero => exact hi
  | succ k ih => exact ih _ (seqInv_step cfg err h st hi)

theorem mainStep_alive (cfg : ShutdownConfig) (err : Bool) (st : MainState) :
    (mainStep cfg err st).health.isAlive = st.health.isAlive := by
  obtain ⟨pc, hl, sl, dr, fl⟩ := st
  cases pc <;> simp [mainStep] <;> split <;> rfl

/-! ## The claims -/

/-- C1: when the `mb` parameter of `/hog` reads as an integer `n > 0`, the handler
appends exactly `n` chunks: the block count afterwards is the count before plus
`n`, the total in the response is that new count, the answer is a 200 and nothing
else in the state changes; and `k` successive `/hog?mb=1` requests from an empty
collection end with count `k`. -/
theorem oneShot_appends_exactly (s : SimState) (p : String) (n : Int)
    (hp : atoi p = some n) (hn : 0 < n) :
    (oneShotHogHandler s p).1.memoryHog = s.memoryHog ++ List.replicate n.toNat newChunk ∧
    (currentBlockCount (oneShotHogHandler s p).1 : Int) = currentBlockCount s + n ∧
    (oneShotHogHandler s p).2 = .allocated n (currentBlockCount (oneShotHogHandler s p).1) ∧
    (oneShotHogHandler s p).2.status = 200 ∧
    (oneShotHogHandler s p).1.hogging = s.hogging ∧
    (oneShotHogHandler s p).1.hogStop = s.hogStop ∧
    (oneShotHogHandler s p).1.chans = s.chans ∧
    (oneShotHogHandler s p).1.loops = s.loops ∧
    ∀ k : Nat, currentBlockCount s = 0 → currentBlockCount (oneShots "1" k s) = k := by
  rw [oneShot_accept s p n hp hn]
  refine ⟨?_, ?_, rfl, rfl, rfl, rfl, rfl, rfl, ?_⟩
  · simp [allocate, allocLoop_eq]
  · simp only [currentBlockCount, allocate_length]
    push_cast
    rw [Int.toNat_of_nonneg hn.le]
  · intro k h0
    rw [oneShots_one_count, h0, Nat.zero_add]

/-- C1 at `/hog?mb=3` on the state right after `/start-hog?mb=4`: three chunks
are appended and the response reports a total of 3. -/
theorem oneShot_appends_exactly_witness :
    atoi "3" = some 3 ∧ (0 : Int) < 3 ∧
    (currentBlockCount (oneShotHogHandler (startHog SimState.initial 4) "3").1 : Int)
      = currentBlockCount (startHog SimState.initial 4) + 3 ∧
    (oneShotHogHandler (startHog SimState.initial 4) "3").2 = .allocated 3 3 ∧
    currentBlockCount (oneShots "1" 6 SimState.initial) = 6 :=
  have h := oneShot_appends_exactly (startHog SimState.initial 4) "3" 3 (by decide) (by decide)
  have h0 := oneShot_appends_exactly SimState.initial "3" 3 (by decide) (by decide)
  ⟨by decide, by decide, h.2.1, by rfl, h0.2.2.2.2.2.2.2.2 6 rfl⟩

/-- C2 as stated fails at the empty parameter: `mb=` does not read as an integer,
yet `/hog` takes the default 10 and allocates, and `/start-hog` takes the default
5 and starts the loop. -/
theorem empty_mb_takes_default :
    atoi "" = none ∧
    (oneShotHogHandler SimState.initial "").2 = .allocated 10 10 ∧
    currentBlockCount (oneShotHogHandler SimState.initial "").1 = 10 ∧
    (startHogHandler SimState.initial "").2 = .started 5 ∧
    (startHogHandler SimState.initial "").1.hogging = true := by
  refine ⟨by decide, by rfl, by rfl, by rfl, by rfl⟩

/-- C2 (amended): for every state and every non-empty `mb` parameter that does
not read as an integer, or reads as a value `<= 0`, both `/hog` and
`/start-hog` answer 400 and return the state they were given. -/
theorem invalid_mb_rejected (s : SimState) (p : String) (hne : p ≠ "")
    (hbad : atoi p = none ∨ ∃ n : Int, atoi p = some n ∧ n ≤ 0) :
    oneShotHogHandler s p = (s, .badRequest) ∧
    startHogHandler s p = (s, .badRequest) ∧
    Response.badRequest.status = 400 := by
  rcases hbad with h | ⟨n, h, hn⟩
  · simp [oneShotHogHandler, startHogHandler, hne, h, Response.status]
  · simp [oneShotHogHandler, startHogHandler, hne, h, hn, Response.status]

/-- C2 (amended) at `mb=abc` while a loop runs, and at `mb=0` and `mb=-3`. -/
theorem invalid_mb_rejected_witness :
    (atoi "abc" = none ∧
      oneShotHogHandler (startHog SimState.initial 4) "abc"
        = (startHog SimState.initial 4, .badRequest) ∧
      startHogHandler (startHog SimState.initial 4) "abc"
        = (startHog SimState.initial 4, .badRequest)) ∧
    (atoi "0" = some 0 ∧
      oneShotHogHandler SimState.initial "0" = (SimState.initial, .badRequest) ∧
      startHogHandler SimState.initial "0" = (SimState.initial, .badRequest)) ∧
    (atoi "-3" = some (-3) ∧
      oneShotHogHandler SimState.initial "-3" = (SimState.initial, .badRequest) ∧
      startHogHandler SimState.initial "-3" = (SimState.initial, .badRequest)) :=
  have h1 := invalid_mb_rejected (startHog SimState.initial 4) "abc" (by decide)
    (Or.inl (by decide))
  have h2 := invalid_mb_rejected SimState.initial "0" (by decide)
    (Or.inr ⟨0, by decide, by decide⟩)
  have h3 := invalid_mb_rejected SimState.initial "-3" (by decide)
    (Or.inr ⟨-3, by decide, by decide⟩)
  ⟨⟨by decide, h1.1, h1.2.1⟩, ⟨by decide, h2.1, h2.2.1⟩, ⟨by decide, h3.1, h3.2.1⟩⟩

/-- C3: with `n > 0` and `m > 0`, once `/start-hog?mb=n` has started a loop, a
`/start-hog?mb=m` request gets the "already hogging" answer and returns the state
unchanged (so `hogging`, `hogStop` and `memoryHog` are as before), in any state in
which `hogging` is set; and however many ticks follow, each one appends exactly
`n` chunks and the second request is still refused. -/
theorem second_start_rejected (s : SimState) (pN pM : String) (n m : Int)
    (hpN : atoi pN = some n) (hn : 0 < n) (hpM : atoi pM = some m) (hm : 0 < m)
    (hidle : s.hogging = false) :
    (startHogHandler s pN).2 = .started n ∧
    (startHogHandler s pN).1.hogging = true ∧
    startHogHandler (startHogHandler s pN).1 pM
      = ((startHogHandler s pN).1, .alreadyHogging) ∧
    (∀ t : SimState, t.hogging = true → startHogHandler t pM = (t, .alreadyHogging)) ∧
    ∀ k : Nat,
      (ticks s.loops.length k (startHogHandler (startHogHandler s pN).1 pM).1).memoryHog
        = s.memoryHog ++ List.replicate (k * n.toNat) newChunk ∧
      (currentBlockCount
          (loopTick (ticks s.loops.length k (startHogHandler (startHogHandler s pN).1 pM).1)
            s.loops.length) : Int)
        = currentBlockCount
            (ticks s.loops.length k (startHogHandler (startHogHandler s pN).1 pM).1) + n ∧
      (ticks s.loops.length k (startHogHandler (startHogHandler s pN).1 pM).1).hogging = true ∧
      (ticks s.loops.length k (startHogHandler (startHogHandler s pN).1 pM).1).hogStop
        = (startHogHandler s pN).1.hogStop ∧
      startHogHandler (ticks s.loops.length k (startHogHandler (startHogHandler s pN).1 pM).1) pM
        = (ticks s.loops.length k (startHogHandler s pN).1, .alreadyHogging) := by
  rw [start_accept s pN n hpN hn hidle]
  have hrej : startHogHandler (startHog s n) pM = (startHog s n, .alreadyHogging) :=
    start_reject _ pM m hpM hm rfl
  refine ⟨rfl, rfl, hrej, fun t ht => start_reject t pM m hpM hm ht, ?_⟩
  intro k
  rw [hrej]
  simp only
  refine ⟨?_, ?_, ?_, ?_, ?_⟩
  · rw [ticks_after_start]
  · have hsucc : loopTick (ticks s.loops.length k (startHog s n)) s.loops.length
        = ticks s.loops.length (k + 1) (startHog s n) := by
      unfold ticks
      rw [Function.iterate_succ_apply']
    rw [hsucc, ticks_after_start, ticks_after_start]
    simp only [currentBlockCount, List.length_append, List.length_replicate, Nat.succ_mul]
    push_cast
    rw [Int.toNat_of_nonneg hn.le]
    ring
  · rw [ticks_after_start]
    rfl
  · rw [ticks_after_start]
  · rw [ticks_after_start]
    exact start_reject _ pM m hpM hm rfl

/-- C3 at `/start-hog?mb=5` then `/start-hog?mb=7` from the initial state: the
second request is refused and two ticks later the collection holds 10 chunks. -/
theorem second_start_rejected_witness :
    atoi "5" = some 5 ∧ atoi "7" = some 7 ∧ SimState.initial.hogging = false ∧
    (startHogHandler (startHogHandler SimState.initial "5").1 "7").2 = .alreadyHogging ∧
    currentBlockCount
      (ticks 0 2 (startHogHandler (startHogHandler SimState.initial "5").1 "7").1) = 10 :=
  have h := second_start_rejected SimState.initial "5" "7" 5 7 (by decide) (by decide)
    (by decide) (by decide) rfl
  ⟨by decide, by decide, rfl, congrArg Prod.snd h.2.2.1,
    by
      have h2 := (h.2.2.2.2 2).1
      simp only [currentBlockCount]
      exact (congrArg List.length h2).trans (by simp [SimState.initial])⟩

/-- C4: the state reached by `/start-hog?mb=5` followed by `/stop-hog`, with no
step of the goroutine in between, still has `hogging` set while channel 0, the
one in `hogStop`, is closed; a second `/stop-hog` there passes the `hogging`
guard and calls `close` on the closed channel, which panics. -/
theorem second_stop_closes_closed_channel :
    (run SimState.initial [.start "5", .stop]).hogging = true ∧
    (run SimState.initial [.start "5", .stop]).hogStop = some 0 ∧
    (run SimState.initial [.start "5", .stop]).chans = [true] ∧
    stopHogHandler (run SimState.initial [.start "5", .stop])
      = .error .closeOfClosedChannel := by
  refine ⟨by rfl, by rfl, by rfl, by rfl⟩

/-- C5: for every state, `/reset-hog` leaves the block count at 0 and changes
neither `hogging` nor `hogStop` (nor the channels and goroutines); and when a
goroutine with `mb > 0` is running, its next tick after the reset appends `mb`
chunks, so the count is `mb > 0` again. -/
theorem reset_clears_blocks_only (s : SimState) :
    currentBlockCount (resetHogHandler s).1 = 0 ∧
    (resetHogHandler s).1.hogging = s.hogging ∧
    (resetHogHandler s).1.hogStop = s.hogStop ∧
    (resetHogHandler s).1.chans = s.chans ∧
    (resetHogHandler s).1.loops = s.loops ∧
    ∀ (i : Nat) (l : Loop), s.loops[i]? = some l → 0 < l.mb →
      (currentBlockCount (loopTick (resetHogHandler s).1 i) : Int) = l.mb ∧
      0 < currentBlockCount (loopTick (resetHogHandler s).1 i) := by
  refine ⟨rfl, rfl, rfl, rfl, rfl, ?_⟩
  intro i l hl hpos
  have hlen : currentBlockCount (loopTick (resetHogHandler s).1 i) = l.mb.toNat := by
    simp [loopTick, resetHogHandler, hl, currentBlockCount, allocate_length]
  rw [hlen]
  constructor
  · exact Int.toNat_of_nonneg hpos.le
  · omega

/-- C5 on the state after `/start-hog?mb=4`, one tick and `/hog?mb=2`: the reset
empties the collection and the next tick brings the count to 4. -/
theorem reset_clears_blocks_only_witness :
    currentBlockCount (run SimState.initial [.start "4", .tick 0, .oneShot "2"]) = 6 ∧
    currentBlockCount
      (resetHogHandler (run SimState.initial [.start "4", .tick 0, .oneShot "2"])).1 = 0 ∧
    (currentBlockCount (loopTick
      (resetHogHandler (run SimState.initial [.start "4", .tick 0, .oneShot "2"])).1 0)
        : Int) = 4 :=
  have h := reset_clears_blocks_only (run SimState.initial [.start "4", .tick 0, .oneShot "2"])
  ⟨by rfl, h.1, (h.2.2.2.2.2 0 { mb := 4, waitingOn := some 0 } (by rfl) (by decide)).1⟩

/-- C6 as stated fails: with `SHUTDOWN_DELAY=-2` the configuration holds -2, not
-1, and `main` is in `select {}` after three statements and stays there; and with
`SHUTDOWN_DELAY=9223372037` the duration handed to `time.Sleep` has wrapped to a
negative number of nanoseconds, not 9223372037 seconds. -/
theorem delay_minus_two_blocks_forever :
    (loadConfig (some "-2") none).shutdownDelay = -2 ∧
    (runMain (loadConfig (some "-2") none) false 3
      (MainState.initial HealthState.initial)).pc = .blockedForever ∧
    (runMain (loadConfig (some "-2") none) false 50
      (MainState.initial HealthState.initial)).pc = .blockedForever ∧
    (loadConfig (some "9223372037") none).shutdownDelay = 9223372037 ∧
    (runMain (loadConfig (some "9223372037") none) false 3
      (MainState.initial HealthState.initial)).sleepNs = some (-9223372036709551616) := by
  decide

/-- C6 (amended): once the signal is received, `main` ends in the permanent wait
exactly when `shutdownDelay < 0`, and then never sleeps, drains or exits; for
every `shutdownDelay >= 0` it sleeps, calls `server.Shutdown` with a 10-second
timeout and has exited after five statements whether or not the drain returned
an error; and for `0 <= shutdownDelay <= 9223372036` the sleep it asks for is
exactly `shutdownDelay` seconds. -/
theorem shutdown_delay_policy (cfg : ShutdownConfig) (err : Bool) (h : HealthState) :
    ((∀ n : Nat, 3 ≤ n → (runMain cfg err n (MainState.initial h)).pc = .blockedForever)
      ↔ cfg.shutdownDelay < 0) ∧
    (cfg.shutdownDelay < 0 → ∀ n : Nat,
      (runMain cfg err n (MainState.initial h)).pc ≠ .sleeping ∧
      (runMain cfg err n (MainState.initial h)).pc ≠ .draining ∧
      (runMain cfg err n (MainState.initial h)).pc ≠ .exited) ∧
    (0 ≤ cfg.shutdownDelay →
      (runMain cfg err 3 (MainState.initial h)).pc = .sleeping ∧
      (runMain cfg err 4 (MainState.initial h)).pc = .draining ∧
      (runMain cfg err 4 (MainState.initial h)).drainTimeoutNs = some (10 * 1000000000) ∧
      (∀ n : Nat, 5 ≤ n →
        (runMain cfg err n (MainState.initial h)).pc = .exited ∧
        (runMain cfg err n (MainState.initial h)).forcedLogged = err)) ∧
    (0 ≤ cfg.shutdownDelay → cfg.shutdownDelay ≤ 9223372036 →
      (runMain cfg err 3 (MainState.initial h)).sleepNs
        = some (cfg.shutdownDelay * 1000000000)) := by
  refine ⟨⟨?_, ?_⟩, ?_, ?_, ?_⟩
  · intro hall
    by_contra hd
    have h5 := hall 5 (by omega)
    rw [runMain_five_nonneg cfg err h (not_lt.mp hd)] at h5
    cases h5
  · intro hd n hn
    obtain ⟨k, rfl⟩ : ∃ k, n = 3 + k := ⟨n - 3, by omega⟩
    rw [runMain_add, runMain_three_neg cfg err h hd, runMain_blocked _ _ _ _ rfl]
  · intro hd n
    exact runMain_pc_neg cfg err h hd n
  · intro hd
    refine ⟨?_, ?_, ?_, ?_⟩
    · cases hu : cfg.unreadyOnShutdown <;>
        simp [runMain, mainStep, MainState.initial, not_lt.mpr hd, hu]
    · cases hu : cfg.unreadyOnShutdown <;>
        simp [runMain, mainStep, MainState.initial, not_lt.mpr hd, hu]
    · cases hu : cfg.unreadyOnShutdown <;>
        simp [runMain, mainStep, MainState.initial, not_lt.mpr hd, hu] <;> decide
    · intro n hn
      rw [runMain_from_five cfg err h hd n hn, runMain_five_nonneg cfg err h hd]
      exact ⟨rfl, rfl⟩
  · intro hd hmax
    have hs : (runMain cfg err 3 (MainState.initial h)).sleepNs
        = some (secondsToDuration cfg.shutdownDelay) := by
      cases hu : cfg.unreadyOnShutdown <;>
        simp [runMain, mainStep, MainState.initial, not_lt.mpr hd, hu]
    rw [hs, secondsToDuration_exact _ hd hmax]

/-- C6 (amended) at `SHUTDOWN_DELAY=2` with a drain that times out: the sleep
asked for is 2 seconds, the drain timeout 10 seconds, and `main` has exited
after five statements. -/
theorem shutdown_delay_policy_witness :
    (loadConfig (some "2") none).shutdownDelay = 2 ∧
    (runMain (loadConfig (some "2") none) true 3
      (MainState.initial HealthState.initial)).sleepNs = some (2 * 1000000000) ∧
    (runMain (loadConfig (some "2") none) true 4
      (MainState.initial HealthState.initial)).drainTimeoutNs = some (10 * 1000000000) ∧
    (runMain (loadConfig (some "2") none) true 5
      (MainState.initial HealthState.initial)).pc = .exited :=
  have h := shutdown_delay_policy (loadConfig (some "2") none) true HealthState.initial
  ⟨by decide, h.2.2.2 (by decide) (by decide), (h.2.2.1 (by decide)).2.2.1,
    ((h.2.2.1 (by decide)).2.2.2 5 (Nat.le_refl 5)).1⟩


/-- C7: for every configuration, every pair of health flags and every number of
statements `main` has run since it began waiting for the signal: `isAlive` is
what it was (no statement writes it, the permanent wait included), so `/healthz`
still answers 200 ALIVE if it did; with `unreadyOnShutdown` set, `isReady` is
false from the delay check onwards, that is before the sleep or the permanent
wait begins, and `/ready` answers 503 NOT READY; with it unset `isReady` is
unchanged. -/
theorem shutdown_health_flags (cfg : ShutdownConfig) (err : Bool) (h : HealthState)
    (n : Nat) :
    (runMain cfg err n (MainState.initial h)).health.isAlive = h.isAlive ∧
    (∀ st : MainState, (mainStep cfg err st).health.isAlive = st.health.isAlive) ∧
    (h.isAlive = true →
      healthzHandler (runMain cfg err n (MainState.initial h)).health = (200, "ALIVE")) ∧
    (cfg.unreadyOnShutdown = true →
      (runMain cfg err n (MainState.initial h)).pc ≠ .awaitSignal →
      (runMain cfg err n (MainState.initial h)).pc ≠ .unreadyCheck →
      (runMain cfg err n (MainState.initial h)).health.isReady = false ∧
      readyHandler (runMain cfg err n (MainState.initial h)).health = (503, "NOT READY")) ∧
    (cfg.unreadyOnShutdown = false →
      (runMain cfg err n (MainState.initial h)).health.isReady = h.isReady) ∧
    (runMain cfg err 2 (MainState.initial h)).pc = .delayCheck ∧
    ((runMain cfg err 3 (MainState.initial h)).pc = .sleeping ∨
      (runMain cfg err 3 (MainState.initial h)).pc = .blockedForever) := by
  have hinv := seqInv_run cfg err h n _ (seqInv_initial cfg h)
  obtain ⟨ha, hr⟩ := hinv
  refine ⟨ha, mainStep_alive cfg err, ?_, ?_, ?_, (runMain_early_pc cfg err h).2.2, ?_⟩
  · intro halive
    simp [healthzHandler, ha, halive]
  · intro hu hp1 hp2
    have hready : (runMain cfg err n (MainState.initial h)).health.isReady = false := by
      simpa [hp1, hp2, hu] using hr
    simp [readyHandler, hready]
  · intro hu
    by_cases hpc : (runMain cfg err n (MainState.initial h)).pc = .awaitSignal ∨
        (runMain cfg err n (MainState.initial h)).pc = .unreadyCheck
    · simpa [hpc] using hr
    · simpa [hpc, hu] using hr
  · by_cases hd : cfg.shutdownDelay < 0
    · right
      rw [runMain_three_neg cfg err h hd]
    · left
      cases hu : cfg.unreadyOnShutdown <;> simp [runMain, mainStep, MainState.initial, hd, hu]

/-- C7 at `SHUTDOWN_DELAY=2`, `UNREADY_ON_SHUTDOWN` unset (so true), both flags
set: when the sleep begins `/ready` answers 503 and `/healthz` answers 200; and
at `SHUTDOWN_DELAY=-1` the same holds in the permanent wait. -/
theorem shutdown_health_flags_witness :
    (loadConfig (some "2") none).unreadyOnShutdown = true ∧
    (runMain (loadConfig (some "2") none) false 3
      (MainState.initial HealthState.initial)).pc = .sleeping ∧
    readyHandler (runMain (loadConfig (some "2") none) false 3
      (MainState.initial HealthState.initial)).health = (503, "NOT READY") ∧
    healthzHandler (runMain (loadConfig (some "2") none) false 3
      (MainState.initial HealthState.initial)).health = (200, "ALIVE") ∧
    (runMain (loadConfig (some "-1") none) false 3
      (MainState.initial HealthState.initial)).pc = .blockedForever ∧
    readyHandler (runMain (loadConfig (some "-1") none) false 3
      (MainState.initial HealthState.initial)).health = (503, "NOT READY") ∧
    healthzHandler (runMain (loadConfig (some "-1") none) false 3
      (MainState.initial HealthState.initial)).health = (200, "ALIVE") :=
  have h := shutdown_health_flags (loadConfig (some "2") none) false HealthState.initial 3
  have g := shutdown_health_flags (loadConfig (some "-1") none) false HealthState.initial 3
  ⟨by decide, by decide, (h.2.2.2.1 (by decide) (by decide) (by decide)).2, h.2.2.1 rfl,
    by decide, (g.2.2.2.1 (by decide) (by decide) (by decide)).2, g.2.2.1 rfl⟩


/-- C9: for every pair of health flags, `/toggle-ready` twice and `/toggle-alive`
twice each give back the original flags; one `/toggle-ready` negates `isReady`
and leaves `isAlive`, one `/toggle-alive` negates `isAlive` and leaves `isReady`. -/
theorem toggle_twice_restores (h : HealthState) :
    (toggleReadyHandler (toggleReadyHandler h).1).1 = h ∧
    (toggleAliveHandler (toggleAliveHandler h).1).1 = h ∧
    (toggleReadyHandler h).1.isReady = (!h.isReady) ∧
    (toggleReadyHandler h).1.isAlive = h.isAlive ∧
    (toggleAliveHandler h).1.isAlive = (!h.isAlive) ∧
    (toggleAliveHandler h).1.isReady = h.isReady := by
  cases h with
  | mk a r => simp [toggleReadyHandler, toggleAliveHandler]

/-- C10: two `/start-hog` requests (`mb=5`, `mb=7`) that both test `hogging`
before either calls `startHog` leave two goroutines with `hogging` set; after a
`/stop-hog` and the exit of the goroutine that waits on the closed channel,
`hogging` is false while the other goroutine still exists, and its next tick
appends 5 chunks. -/
theorem overlapping_starts_spawn_two_loops :
    (run SimState.initial
      [.startTest "5", .startTest "7", .startCall 0, .startCall 0]).hogging = true ∧
    (run SimState.initial
      [.startTest "5", .startTest "7", .startCall 0, .startCall 0]).loops.length = 2 ∧
    (run SimState.initial
      [.startTest "5", .startTest "7", .startCall 0, .startCall 0, .stop, .exit 1]).hogging
        = false ∧
    (run SimState.initial
      [.startTest "5", .startTest "7", .startCall 0, .startCall 0, .stop, .exit 1]).loops.length
        = 1 ∧
    currentBlockCount (run SimState.initial
      [.startTest "5", .startTest "7", .startCall 0, .startCall 0, .stop, .exit 1, .tick 0])
        = 5 := by
  refine ⟨by rfl, by rfl, by rfl, by rfl, by rfl⟩

end ContainerConceptsDemo
